import Mathlib

set_option maxRecDepth 8192

/-!
Shallow embedding of the Soleus WS3-08E-201 infrared climate codec
(src/components/soleus/soleus.h and soleus.cpp).

Modelling conventions:
* uint8_t values are `ℕ`; wherever the C++ code wraps (the checksum's
  `& 0xFF`) the reduction `% 256` is written explicitly.  In
  `protocol_to_temp_` the C++ operands are promoted to `int` before the
  subtraction, so no 8-bit wrap occurs there; the model computes in `ℚ`.
* `float` values are modelled as exact rationals `ℚ`.  The only
  float-to-integer transition in the code, the narrowing cast
  `static_cast<uint8_t>(temp_f - SOLEUS_TEMP_MIN)`, acts on a value that
  the preceding clamp keeps in [0, 24], where truncation toward zero is
  `Int.floor`; the model writes that floor explicitly.
* The mutable entity state of `SoleusClimate` (mode, fan_mode, preset,
  target_temperature, plus the configured `supports_heat_` flag) is an
  explicit record threaded through the operations: `transmit_state`
  returns the frame together with the possibly adjusted state, and the
  receive path returns the new state together with the boolean the C++
  methods return.
* The IR receiver's `expect_item` tolerance window is collaborator
  behaviour outside this repository; the model matches durations
  exactly, which is the idealised receiver fed by the transmitter's own
  output.
-/

namespace Soleus

/-- Temperature range constants from soleus.h (Fahrenheit). -/
def SOLEUS_TEMP_MIN : ℕ := 62

/-- Upper Fahrenheit bound from soleus.h. -/
def SOLEUS_TEMP_MAX : ℕ := 86

/-- Header mark duration in microseconds. -/
def SOLEUS_HEADER_MARK : ℕ := 8000

/-- Header space duration in microseconds. -/
def SOLEUS_HEADER_SPACE : ℕ := 4000

/-- Bit mark duration in microseconds. -/
def SOLEUS_BIT_MARK : ℕ := 600

/-- Space duration encoding a one bit. -/
def SOLEUS_ONE_SPACE : ℕ := 1600

/-- Space duration encoding a zero bit. -/
def SOLEUS_ZERO_SPACE : ℕ := 550

/-- Device identifier carried in byte 0. -/
def SOLEUS_BYTE1_DEVICE : ℕ := 0x19

/-- Byte 1 value for normal (non-sleep) powered operation. -/
def SOLEUS_BYTE2_NORMAL : ℕ := 0x80

/-- Byte 1 value when the SLEEP preset is active. -/
def SOLEUS_BYTE2_SLEEP : ℕ := 0x81

/-- Byte 1 value for power off. -/
def SOLEUS_BYTE2_POWER_OFF : ℕ := 0x00

/-- Byte 2 value for DRY mode (low fan forced). -/
def SOLEUS_FAN_DRY_LOW : ℕ := 0x12

/-- Byte 2 value for power off. -/
def SOLEUS_BYTE3_POWER_OFF : ℕ := 0x13

/-- Byte 4 sentinel for AUTO mode. -/
def SOLEUS_BYTE5_AUTO : ℕ := 0x48

/-- Byte 4 sentinel for FAN-only mode. -/
def SOLEUS_BYTE5_FAN_ONLY : ℕ := 0x4F

/-- Byte 4 sentinel for power off. -/
def SOLEUS_BYTE5_POWER_OFF : ℕ := 0x4F

/-- Byte 4 sentinel for DRY mode (same as FAN only). -/
def SOLEUS_BYTE5_DRY : ℕ := 0x4F

/-- Base protocol value representing 62 Fahrenheit. -/
def SOLEUS_TEMP_BASE : ℕ := 0x3E

/-- Climate operating modes used by this component (from the esphome
climate enumeration; only the members the component touches). -/
inductive ClimateMode where
  | off
  | cool
  | heat
  | fanOnly
  | dry
  | auto
  | heatCool
  deriving DecidableEq, Repr

/-- Fan speeds offered by the component. -/
inductive ClimateFanMode where
  | low
  | medium
  | high
  deriving DecidableEq, Repr

/-- Presets offered by the component. -/
inductive ClimatePreset where
  | none
  | eco
  | sleep
  deriving DecidableEq, Repr

/-- The entity state of a SoleusClimate instance: the configured
heat-capability flag plus the mutable climate fields the codec reads and
writes.  fan_mode and preset are optionals, as in the C++ base class. -/
structure SoleusClimate where
  supports_heat : Bool
  mode : ClimateMode
  fan_mode : Option ClimateFanMode
  preset : Option ClimatePreset
  target_temperature : ℚ
  deriving DecidableEq, Repr

/-- A 9-byte protocol frame; each field models one uint8_t slot. -/
structure Frame where
  b0 : ℕ
  b1 : ℕ
  b2 : ℕ
  b3 : ℕ
  b4 : ℕ
  b5 : ℕ
  b6 : ℕ
  b7 : ℕ
  b8 : ℕ
  deriving DecidableEq, Repr

/-- Well-formedness of a frame: every byte fits in eight bits. -/
def Frame.wf (f : Frame) : Prop :=
  f.b0 < 256 ∧ f.b1 < 256 ∧ f.b2 < 256 ∧ f.b3 < 256 ∧ f.b4 < 256 ∧
  f.b5 < 256 ∧ f.b6 < 256 ∧ f.b7 < 256 ∧ f.b8 < 256

instance (f : Frame) : Decidable f.wf := by
  unfold Frame.wf; infer_instance

/-- SoleusClimate::calculate_checksum_: sum of bytes 1, 2 and 4 reduced
modulo 256 (the `& 0xFF` of the source). -/
def calculate_checksum (byte2 byte3 byte5 : ℕ) : ℕ :=
  (byte2 + byte3 + byte5) % 256

/-- SoleusClimate::temp_to_protocol_: Celsius to Fahrenheit, clamp to
[62, 86], then offset from the protocol base.  The float is modelled as
an exact rational; the narrowing cast truncates the clamped nonnegative
difference, which is its floor. -/
def temp_to_protocol (temp_c : ℚ) : ℕ :=
  let temp_f : ℚ := temp_c * 9 / 5 + 32
  let clamped : ℚ := max (SOLEUS_TEMP_MIN : ℚ) (min (SOLEUS_TEMP_MAX : ℚ) temp_f)
  SOLEUS_TEMP_BASE + (⌊clamped - (SOLEUS_TEMP_MIN : ℚ)⌋).toNat

/-- SoleusClimate::protocol_to_temp_: protocol value back to Celsius.
The uint8_t operands are promoted to int in C++, so the arithmetic is
exact; the model computes directly in ℚ. -/
def protocol_to_temp (value : ℕ) : ℚ :=
  let temp_f : ℚ := (value : ℚ) - (SOLEUS_TEMP_BASE : ℚ) + (SOLEUS_TEMP_MIN : ℚ)
  (temp_f - 32) * 5 / 9

/-- Fan-speed base nibble selection from transmit_state's switch over
fan_mode.value_or(CLIMATE_FAN_MEDIUM). -/
def fanSpeedBase (fm : Option ClimateFanMode) : ℕ :=
  match fm.getD ClimateFanMode.medium with
  | ClimateFanMode.low => 0x10
  | ClimateFanMode.medium => 0x20
  | ClimateFanMode.high => 0x30

/-- SoleusClimate::transmit_state, frame-building part: returns the
9-byte frame and the (possibly adjusted) entity state; DRY mode forces
fan_mode to LOW on the caller-visible state, as in the source. -/
def transmit_state (s : SoleusClimate) : Frame × SoleusClimate :=
  if s.mode = ClimateMode.off then
    ({ b0 := SOLEUS_BYTE1_DEVICE
       b1 := SOLEUS_BYTE2_POWER_OFF
       b2 := SOLEUS_BYTE3_POWER_OFF
       b3 := 0x00
       b4 := SOLEUS_BYTE5_POWER_OFF
       b5 := 0x00
       b6 := 0x00
       b7 := 0x00
       b8 := calculate_checksum SOLEUS_BYTE2_POWER_OFF SOLEUS_BYTE3_POWER_OFF
               SOLEUS_BYTE5_POWER_OFF }, s)
  else
    let is_sleep := s.preset.getD ClimatePreset.none = ClimatePreset.sleep
    let is_eco := s.preset.getD ClimatePreset.none = ClimatePreset.eco
    let byte1 := if is_sleep then SOLEUS_BYTE2_SLEEP else SOLEUS_BYTE2_NORMAL
    let fan_speed_base := fanSpeedBase s.fan_mode
    let packed :=
      if s.mode = ClimateMode.fanOnly then
        (fan_speed_base ||| 0x03, SOLEUS_BYTE5_FAN_ONLY, s)
      else if s.mode = ClimateMode.auto then
        (fan_speed_base ||| 0x00, SOLEUS_BYTE5_AUTO, s)
      else if s.mode = ClimateMode.dry then
        (SOLEUS_FAN_DRY_LOW, SOLEUS_BYTE5_DRY,
         { s with fan_mode := some ClimateFanMode.low })
      else if s.mode = ClimateMode.heat then
        (fan_speed_base ||| 0x01, temp_to_protocol s.target_temperature, s)
      else if is_sleep then
        (fan_speed_base ||| 0x06, temp_to_protocol s.target_temperature, s)
      else if is_eco then
        (fan_speed_base ||| 0x05, temp_to_protocol s.target_temperature, s)
      else
        (fan_speed_base ||| 0x01, temp_to_protocol s.target_temperature, s)
    ({ b0 := SOLEUS_BYTE1_DEVICE
       b1 := byte1
       b2 := packed.1
       b3 := 0x00
       b4 := packed.2.1
       b5 := 0x00
       b6 := 0x00
       b7 := 0x00
       b8 := calculate_checksum byte1 packed.1 packed.2.1 }, packed.2.2)

/-- SoleusClimate::parse_state_frame_: interpret a validated frame,
updating the entity state.  The C++ method always returns true; the
state updates are the observable effect. -/
def parse_state_frame (s : SoleusClimate) (frame : Frame) : SoleusClimate :=
  if frame.b1 = SOLEUS_BYTE2_POWER_OFF then
    { s with mode := ClimateMode.off }
  else
    let fan_speed := frame.b2 &&& 0xF0
    let s1 :=
      if fan_speed = 0x10 then { s with fan_mode := some ClimateFanMode.low }
      else if fan_speed = 0x20 then { s with fan_mode := some ClimateFanMode.medium }
      else if fan_speed = 0x30 then { s with fan_mode := some ClimateFanMode.high }
      else s
    let mode_nibble := frame.b2 &&& 0x0F
    if mode_nibble = 0x0 then
      { s1 with mode := ClimateMode.auto, preset := some ClimatePreset.none }
    else if mode_nibble = 0x1 then
      { s1 with mode := ClimateMode.cool, preset := some ClimatePreset.none,
                target_temperature := protocol_to_temp frame.b4 }
    else if mode_nibble = 0x2 then
      { s1 with mode := ClimateMode.dry, preset := some ClimatePreset.none,
                fan_mode := some ClimateFanMode.low }
    else if mode_nibble = 0x3 then
      { s1 with mode := ClimateMode.fanOnly, preset := some ClimatePreset.none }
    else if mode_nibble = 0x5 then
      { s1 with mode := ClimateMode.cool, preset := some ClimatePreset.eco,
                target_temperature := protocol_to_temp frame.b4 }
    else if mode_nibble = 0x6 then
      { s1 with mode := ClimateMode.cool, preset := some ClimatePreset.sleep,
                target_temperature := protocol_to_temp frame.b4 }
    else
      s1

/-- Frame-level part of SoleusClimate::on_receive: device-id check,
checksum check, then parse_state_frame_.  Returns the new state and the
boolean on_receive returns; a rejection leaves the state untouched. -/
def receive_frame (s : SoleusClimate) (frame : Frame) : SoleusClimate × Bool :=
  if frame.b0 ≠ SOLEUS_BYTE1_DEVICE then (s, false)
  else if frame.b8 ≠ calculate_checksum frame.b1 frame.b2 frame.b4 then (s, false)
  else (parse_state_frame s frame, true)

/-- One bit of the transmit pulse train: the bit mark followed by the
one-space or zero-space, depending on bit `bit` of byte `b` (the
source's test `frame[i] & (1 << bit)`). -/
def bitPulses (b bit : ℕ) : List ℕ :=
  [SOLEUS_BIT_MARK, if b.testBit bit then SOLEUS_ONE_SPACE else SOLEUS_ZERO_SPACE]

/-- Pulse pairs for one byte, most-significant bit first (the source's
inner loop over bit = 7 down to 0). -/
def byteToPulses (b : ℕ) : List ℕ :=
  bitPulses b 7 ++ bitPulses b 6 ++ bitPulses b 5 ++ bitPulses b 4 ++
  bitPulses b 3 ++ bitPulses b 2 ++ bitPulses b 1 ++ bitPulses b 0

/-- The pronto_data vector built by transmit_state: header mark and
space, 72 bit pairs in frame order, one trailing bit mark. -/
def toPulses (f : Frame) : List ℕ :=
  SOLEUS_HEADER_MARK :: SOLEUS_HEADER_SPACE ::
    (byteToPulses f.b0 ++ byteToPulses f.b1 ++ byteToPulses f.b2 ++
     byteToPulses f.b3 ++ byteToPulses f.b4 ++ byteToPulses f.b5 ++
     byteToPulses f.b6 ++ byteToPulses f.b7 ++ byteToPulses f.b8 ++
     [SOLEUS_BIT_MARK])

/-- The receiver's header check: consume the header mark/space pair or
fail, leaving nothing consumed. -/
def expectHeader : List ℕ → Option (List ℕ)
  | hm :: hs :: rest =>
    if hm = SOLEUS_HEADER_MARK ∧ hs = SOLEUS_HEADER_SPACE then some rest else none
  | _ => none

/-- One bit of the receive loop: try the one-space pair first, then the
zero-space pair, as on_receive does; a tested-and-failed pair consumes
nothing, mirroring expect_item. -/
def decodeBit : List ℕ → Option (Bool × List ℕ)
  | m :: sp :: rest =>
    if m = SOLEUS_BIT_MARK ∧ sp = SOLEUS_ONE_SPACE then some (true, rest)
    else if m = SOLEUS_BIT_MARK ∧ sp = SOLEUS_ZERO_SPACE then some (false, rest)
    else none
  | _ => none

/-- Decode `n` bits into an accumulator, most-significant bit first:
the `frame[byte_index] |= (1 << bit_index)` packing of on_receive. -/
def decodeByte (acc : ℕ) : ℕ → List ℕ → Option (ℕ × List ℕ)
  | 0, ps => some (acc, ps)
  | n + 1, ps =>
    match decodeBit ps with
    | none => none
    | some (bit, ps') => decodeByte (2 * acc + (if bit then 1 else 0)) n ps'

/-- Pulse-level part of SoleusClimate::on_receive: header, then 72 bits
packed into 9 bytes most-significant bit first.  Trailing input beyond
the 72 bits is ignored, as in the source. -/
def fromPulses (ps : List ℕ) : Option Frame := do
  let r ← expectHeader ps
  let (v0, r0) ← decodeByte 0 8 r
  let (v1, r1) ← decodeByte 0 8 r0
  let (v2, r2) ← decodeByte 0 8 r1
  let (v3, r3) ← decodeByte 0 8 r2
  let (v4, r4) ← decodeByte 0 8 r3
  let (v5, r5) ← decodeByte 0 8 r4
  let (v6, r6) ← decodeByte 0 8 r5
  let (v7, r7) ← decodeByte 0 8 r6
  let (v8, _) ← decodeByte 0 8 r7
  pure { b0 := v0, b1 := v1, b2 := v2, b3 := v3, b4 := v4,
         b5 := v5, b6 := v6, b7 := v7, b8 := v8 }

/-- Full SoleusClimate::on_receive: pulse decode, then frame-level
validation and parsing; any failure leaves the state untouched and
returns false. -/
def on_receive (s : SoleusClimate) (ps : List ℕ) : SoleusClimate × Bool :=
  match fromPulses ps with
  | none => (s, false)
  | some frame => receive_frame s frame

end Soleus

namespace Soleus

/-- Claim C6 counterexample: the pulse train of a concrete frame has 147
durations, not the 149 the claim states. -/
theorem toPulses_concrete_length_ne_149 :
    (toPulses ⟨0x19, 0, 0, 0, 0, 0, 0, 0, 0x19⟩).length = 147 ∧
    (toPulses ⟨0x19, 0, 0, 0, 0, 0, 0, 0, 0x19⟩).length ≠ 149 := by
  decide

/-- Claim C6 (amended): for every 9-byte frame the pulse encoding emits
exactly 2 (header) + 72 times 2 (bits) + 1 (trailing) = 147 durations. -/
theorem toPulses_length (f : Frame) : (toPulses f).length = 147 := by
  simp [toPulses, byteToPulses, bitPulses]

/-- Evaluation helper: 22 Celsius is 71.6 Fahrenheit, inside the clamp
range, and the truncating cast maps 9.6 to 9, so the protocol byte is
0x3E + 9 = 0x47. -/
theorem temp_to_protocol_22 : temp_to_protocol 22 = 0x47 := by
  have h1 : ((22 : ℚ) * 9 / 5 + 32) = 71.6 := by norm_num
  simp only [temp_to_protocol, SOLEUS_TEMP_MIN, SOLEUS_TEMP_MAX, SOLEUS_TEMP_BASE, h1]
  rw [min_eq_right (by norm_num), max_eq_right (by norm_num)]
  norm_num
  rfl

/-- Claim C4 counterexample: encoding power on, COOL, HIGH fan, no
preset, 22 Celsius does not produce the claimed frame with byte 4 equal
to 0x48 and checksum 0xF9. -/
theorem encode_cool22_ne_claimed_frame :
    (transmit_state ⟨false, ClimateMode.cool, some ClimateFanMode.high,
        some ClimatePreset.none, 22⟩).1 ≠
      ⟨0x19, 0x80, 0x31, 0x00, 0x48, 0x00, 0x00, 0x00, 0xF9⟩ := by
  simp [transmit_state, fanSpeedBase, calculate_checksum, temp_to_protocol_22,
    SOLEUS_BYTE1_DEVICE, SOLEUS_BYTE2_NORMAL, Frame.mk.injEq]

/-- Claim C4 (amended): encoding power on, COOL, HIGH fan, no preset,
22 Celsius produces exactly [0x19, 0x80, 0x31, 0x00, 0x47, 0x00, 0x00,
0x00, 0xF8]: 22 Celsius is 71.6 Fahrenheit, the narrowing cast
truncates 9.6 to 9, so byte 4 is 0x3E + 9 = 0x47 and the checksum is
(0x80 + 0x31 + 0x47) mod 256 = 0xF8. -/
theorem encode_cool22_frame :
    (transmit_state ⟨false, ClimateMode.cool, some ClimateFanMode.high,
        some ClimatePreset.none, 22⟩).1 =
      ⟨0x19, 0x80, 0x31, 0x00, 0x47, 0x00, 0x00, 0x00, 0xF8⟩ := by
  simp [transmit_state, fanSpeedBase, calculate_checksum, temp_to_protocol_22,
    SOLEUS_BYTE1_DEVICE, SOLEUS_BYTE2_NORMAL, Frame.mk.injEq]

/-- Claim C5 counterexample: encoding a powered-off state does not give
the claimed all-zero frame; bytes 2 and 4 carry the power-off codes
0x13 and 0x4F. -/
theorem encode_off_ne_claimed_frame :
    (transmit_state ⟨false, ClimateMode.off, none, none, 22⟩).1 ≠
      ⟨0x19, 0x00, 0x00, 0x00, 0x00, 0x00, 0x00, 0x00, 0x00⟩ := by
  decide

/-- Claim C5 (amended): every powered-off state encodes to exactly
[0x19, 0x00, 0x13, 0x00, 0x4F, 0x00, 0x00, 0x00, 0x62], independent of
the other fields, with checksum (0x00 + 0x13 + 0x4F) mod 256 = 0x62;
and decoding that frame from any prior state yields power off. -/
theorem encode_off_frame (s s' : SoleusClimate) (h : s.mode = ClimateMode.off) :
    (transmit_state s).1 = ⟨0x19, 0x00, 0x13, 0x00, 0x4F, 0x00, 0x00, 0x00, 0x62⟩ ∧
    (receive_frame s' ⟨0x19, 0x00, 0x13, 0x00, 0x4F, 0x00, 0x00, 0x00, 0x62⟩).1.mode
        = ClimateMode.off ∧
    (receive_frame s' ⟨0x19, 0x00, 0x13, 0x00, 0x4F, 0x00, 0x00, 0x00, 0x62⟩).2 = true := by
  refine ⟨?_, ?_, ?_⟩
  · simp [transmit_state, h, calculate_checksum, SOLEUS_BYTE1_DEVICE,
      SOLEUS_BYTE2_POWER_OFF, SOLEUS_BYTE3_POWER_OFF, SOLEUS_BYTE5_POWER_OFF]
  · simp [receive_frame, parse_state_frame, calculate_checksum,
      SOLEUS_BYTE1_DEVICE, SOLEUS_BYTE2_POWER_OFF]
  · simp [receive_frame, parse_state_frame, calculate_checksum, SOLEUS_BYTE1_DEVICE]

/-- Claim C5 (amended) witness at a concrete powered-off state. -/
theorem encode_off_frame_witness :
    (transmit_state ⟨false, ClimateMode.off, none, none, 0⟩).1
        = ⟨0x19, 0x00, 0x13, 0x00, 0x4F, 0x00, 0x00, 0x00, 0x62⟩ ∧
    (receive_frame ⟨true, ClimateMode.auto, none, none, 0⟩
        ⟨0x19, 0x00, 0x13, 0x00, 0x4F, 0x00, 0x00, 0x00, 0x62⟩).1.mode
        = ClimateMode.off ∧
    (receive_frame ⟨true, ClimateMode.auto, none, none, 0⟩
        ⟨0x19, 0x00, 0x13, 0x00, 0x4F, 0x00, 0x00, 0x00, 0x62⟩).2 = true :=
  encode_off_frame ⟨false, ClimateMode.off, none, none, 0⟩
    ⟨true, ClimateMode.auto, none, none, 0⟩ rfl

end Soleus

namespace Soleus

/-- Claim C7: a frame whose byte 0 is not the device id 0x19, or whose
byte 8 differs from (byte1 + byte2 + byte4) mod 256, is rejected and the
logical climate state is returned unchanged. -/
theorem malformed_frame_rejected (s : SoleusClimate) (f : Frame)
    (h : f.b0 ≠ SOLEUS_BYTE1_DEVICE ∨ f.b8 ≠ (f.b1 + f.b2 + f.b4) % 256) :
    receive_frame s f = (s, false) := by
  rcases h with h | h
  · simp [receive_frame, h]
  · by_cases h0 : f.b0 = SOLEUS_BYTE1_DEVICE
    · simp [receive_frame, calculate_checksum, h, h0]
    · simp [receive_frame, h0]

/-- Claim C7 witness: a concrete frame with wrong device id byte 0x20 is
rejected with the state unchanged. -/
theorem malformed_frame_rejected_witness :
    receive_frame ⟨false, ClimateMode.auto, none, none, 0⟩
        ⟨0x20, 0x80, 0x31, 0x00, 0x48, 0x00, 0x00, 0x00, 0xF9⟩
      = (⟨false, ClimateMode.auto, none, none, 0⟩, false) :=
  malformed_frame_rejected _ _ (Or.inl (by decide))

/-- Claim C9: the receive path reads only frame bytes 0, 1, 2, 4 and 8,
so two frames agreeing on those bytes are either both rejected or both
accepted, with identical resulting states. -/
theorem receive_depends_only_on_bytes_0_1_2_4_8 (s : SoleusClimate) (f g : Frame)
    (e0 : f.b0 = g.b0) (e1 : f.b1 = g.b1) (e2 : f.b2 = g.b2)
    (e4 : f.b4 = g.b4) (e8 : f.b8 = g.b8) :
    receive_frame s f = receive_frame s g := by
  simp only [receive_frame, parse_state_frame, e0, e1, e2, e4, e8]

/-- Claim C9 witness: two concrete accepted frames differing in bytes 3,
5, 6 and 7 decode identically. -/
theorem receive_depends_only_on_bytes_0_1_2_4_8_witness :
    receive_frame ⟨false, ClimateMode.auto, none, none, 0⟩
        ⟨0x19, 0x80, 0x31, 0x00, 0x48, 0x00, 0x00, 0x00, 0xF9⟩
      = receive_frame ⟨false, ClimateMode.auto, none, none, 0⟩
        ⟨0x19, 0x80, 0x31, 0xAA, 0x48, 0xBB, 0xCC, 0xDD, 0xF9⟩ :=
  receive_depends_only_on_bytes_0_1_2_4_8 _ _ _ rfl rfl rfl rfl rfl

/-- Claim C3 counterexample: on a heat-capable configuration
(supports_heat = true) the valid frame 19 80 31 00 48 00 00 00 F9,
whose byte 2 low nibble is 0x1, decodes to COOL, not HEAT as the claim
requires. -/
theorem nibble1_decodes_cool_despite_supports_heat :
    (receive_frame ⟨true, ClimateMode.auto, none, none, 0⟩
        ⟨0x19, 0x80, 0x31, 0x00, 0x48, 0x00, 0x00, 0x00, 0xF9⟩).1.mode
      = ClimateMode.cool ∧ ClimateMode.cool ≠ ClimateMode.heat := by
  constructor
  · have h1 : (0x31 : ℕ) &&& 0x0F = 0x1 := by decide
    have h2 : (0x31 : ℕ) &&& 0xF0 = 0x30 := by decide
    simp [receive_frame, parse_state_frame, calculate_checksum, SOLEUS_BYTE1_DEVICE,
      SOLEUS_BYTE2_POWER_OFF, h1, h2]
  · decide

/-- Claim C3 (amended): for every configuration and every validated
powered-on frame whose byte 2 low nibble is 0x1, the decoder resolves
the mode to COOL unconditionally; the supports_heat flag is never
consulted at decode time, so a HEAT command does not decode back to
HEAT even on a heat-capable unit. -/
theorem nibble1_always_decodes_cool (s : SoleusClimate) (f : Frame)
    (hdev : f.b0 = SOLEUS_BYTE1_DEVICE)
    (hck : f.b8 = calculate_checksum f.b1 f.b2 f.b4)
    (hon : f.b1 ≠ SOLEUS_BYTE2_POWER_OFF)
    (hnib : f.b2 &&& 0x0F = 0x1) :
    (receive_frame s f).1.mode = ClimateMode.cool ∧ (receive_frame s f).2 = true := by
  constructor
  · simp [receive_frame, parse_state_frame, hdev, hck, hon, hnib]
  · simp [receive_frame, hdev, hck]

/-- Claim C3 (amended) witness: a heat-capable configuration decoding
the concrete nibble-0x1 frame 19 80 31 00 48 00 00 00 F9 yields COOL
and acceptance. -/
theorem nibble1_always_decodes_cool_witness :
    (receive_frame ⟨true, ClimateMode.auto, none, none, 0⟩
        ⟨0x19, 0x80, 0x31, 0x00, 0x48, 0x00, 0x00, 0x00, 0xF9⟩).1.mode
      = ClimateMode.cool ∧
    (receive_frame ⟨true, ClimateMode.auto, none, none, 0⟩
        ⟨0x19, 0x80, 0x31, 0x00, 0x48, 0x00, 0x00, 0x00, 0xF9⟩).2 = true :=
  nibble1_always_decodes_cool _ _ rfl (by decide) (by decide) (by decide)

end Soleus

namespace Soleus

/-- One transmitted bit pair decodes back to the bit that produced it. -/
theorem decodeBit_bitPulses (b bit : ℕ) (rest : List ℕ) :
    decodeBit (bitPulses b bit ++ rest) = some (b.testBit bit, rest) := by
  cases h : b.testBit bit <;>
    simp [bitPulses, decodeBit, h, SOLEUS_BIT_MARK, SOLEUS_ONE_SPACE, SOLEUS_ZERO_SPACE]

set_option maxHeartbeats 1000000 in
/-- Eight transmitted bit pairs decode back to the byte that produced
them, consuming exactly those sixteen durations. -/
theorem decodeByte_byteToPulses (b : ℕ) (hb : b < 256) (rest : List ℕ) :
    decodeByte 0 8 (byteToPulses b ++ rest) = some (b, rest) := by
  have hif : ∀ n : ℕ, (if n % 2 = 1 then 1 else 0) = n % 2 := by
    intro n; rcases Nat.mod_two_eq_zero_or_one n with h | h <;> simp [h]
  simp only [byteToPulses, List.append_assoc, decodeByte, decodeBit_bitPulses]
  simp only [Nat.testBit_to_div_mod, decide_eq_true_eq, Nat.pow_succ, Nat.pow_zero,
    Nat.one_mul, Nat.reduceMul, Option.some.injEq, Prod.mk.injEq, and_true, hif]
  omega

set_option maxHeartbeats 2000000 in
/-- Claim C2: pulse decoding inverts pulse encoding: for every 9-byte
frame, applying the receive procedure (header pair, then 72 mark/space
bit pairs packed most-significant bit first) to the transmit pulse
train reconstructs the same frame. -/
theorem fromPulses_toPulses (f : Frame) (h : f.wf) :
    fromPulses (toPulses f) = some f := by
  obtain ⟨h0, h1, h2, h3, h4, h5, h6, h7, h8⟩ := h
  simp only [toPulses, fromPulses, expectHeader, List.append_assoc, and_self, if_true,
    decodeByte_byteToPulses _ h0, decodeByte_byteToPulses _ h1,
    decodeByte_byteToPulses _ h2, decodeByte_byteToPulses _ h3,
    decodeByte_byteToPulses _ h4, decodeByte_byteToPulses _ h5,
    decodeByte_byteToPulses _ h6, decodeByte_byteToPulses _ h7,
    decodeByte_byteToPulses _ h8, Option.some_bind, Option.bind_eq_bind]
  rfl

/-- Claim C2 witness: the concrete COOL frame 19 80 31 00 48 00 00 00
F9 survives the pulse round trip. -/
theorem fromPulses_toPulses_witness :
    fromPulses (toPulses ⟨0x19, 0x80, 0x31, 0x00, 0x48, 0x00, 0x00, 0x00, 0xF9⟩)
      = some ⟨0x19, 0x80, 0x31, 0x00, 0x48, 0x00, 0x00, 0x00, 0xF9⟩ :=
  fromPulses_toPulses _ (by decide)

end Soleus

namespace Soleus

/-- Claim C1: for every powered-on state, bytes 2 and 4 are resolved by
the first matching rule of the ordered cascade FAN_ONLY, AUTO, DRY,
HEAT, SLEEP preset, ECO preset, otherwise plain COOL; DRY also
overwrites the caller-visible fan_mode to LOW. -/
theorem encode_mode_preset_cascade (s : SoleusClimate) (hpow : s.mode ≠ ClimateMode.off) :
    (s.mode = ClimateMode.fanOnly →
      (transmit_state s).1.b2 = (fanSpeedBase s.fan_mode ||| 0x03) ∧
      (transmit_state s).1.b4 = SOLEUS_BYTE5_FAN_ONLY) ∧
    (s.mode ≠ ClimateMode.fanOnly → s.mode = ClimateMode.auto →
      (transmit_state s).1.b2 = (fanSpeedBase s.fan_mode ||| 0x00) ∧
      (transmit_state s).1.b4 = SOLEUS_BYTE5_AUTO) ∧
    (s.mode ≠ ClimateMode.fanOnly → s.mode ≠ ClimateMode.auto →
     s.mode = ClimateMode.dry →
      (transmit_state s).1.b2 = SOLEUS_FAN_DRY_LOW ∧
      (transmit_state s).1.b4 = SOLEUS_BYTE5_DRY ∧
      (transmit_state s).2 = { s with fan_mode := some ClimateFanMode.low }) ∧
    (s.mode ≠ ClimateMode.fanOnly → s.mode ≠ ClimateMode.auto →
     s.mode ≠ ClimateMode.dry → s.mode = ClimateMode.heat →
      (transmit_state s).1.b2 = (fanSpeedBase s.fan_mode ||| 0x01) ∧
      (transmit_state s).1.b4 = temp_to_protocol s.target_temperature) ∧
    (s.mode ≠ ClimateMode.fanOnly → s.mode ≠ ClimateMode.auto →
     s.mode ≠ ClimateMode.dry → s.mode ≠ ClimateMode.heat →
     s.preset.getD ClimatePreset.none = ClimatePreset.sleep →
      (transmit_state s).1.b2 = (fanSpeedBase s.fan_mode ||| 0x06) ∧
      (transmit_state s).1.b4 = temp_to_protocol s.target_temperature) ∧
    (s.mode ≠ ClimateMode.fanOnly → s.mode ≠ ClimateMode.auto →
     s.mode ≠ ClimateMode.dry → s.mode ≠ ClimateMode.heat →
     s.preset.getD ClimatePreset.none ≠ ClimatePreset.sleep →
     s.preset.getD ClimatePreset.none = ClimatePreset.eco →
      (transmit_state s).1.b2 = (fanSpeedBase s.fan_mode ||| 0x05) ∧
      (transmit_state s).1.b4 = temp_to_protocol s.target_temperature) ∧
    (s.mode ≠ ClimateMode.fanOnly → s.mode ≠ ClimateMode.auto →
     s.mode ≠ ClimateMode.dry → s.mode ≠ ClimateMode.heat →
     s.preset.getD ClimatePreset.none ≠ ClimatePreset.sleep →
     s.preset.getD ClimatePreset.none ≠ ClimatePreset.eco →
      (transmit_state s).1.b2 = (fanSpeedBase s.fan_mode ||| 0x01) ∧
      (transmit_state s).1.b4 = temp_to_protocol s.target_temperature) := by
  refine ⟨?_, ?_, ?_, ?_, ?_, ?_, ?_⟩ <;> intros <;>
    simp_all [transmit_state]

/-- Claim C1 witness: the cascade's DRY rule at a concrete powered-on
DRY state with HIGH fan: byte 2 is the fixed DRY code 0x12, byte 4 the
DRY sentinel, and the returned state has fan_mode LOW. -/
theorem encode_mode_preset_cascade_witness :
    (transmit_state ⟨false, ClimateMode.dry, some ClimateFanMode.high,
        some ClimatePreset.none, 22⟩).1.b2 = SOLEUS_FAN_DRY_LOW ∧
    (transmit_state ⟨false, ClimateMode.dry, some ClimateFanMode.high,
        some ClimatePreset.none, 22⟩).1.b4 = SOLEUS_BYTE5_DRY ∧
    (transmit_state ⟨false, ClimateMode.dry, some ClimateFanMode.high,
        some ClimatePreset.none, 22⟩).2
      = { supports_heat := false, mode := ClimateMode.dry,
          fan_mode := some ClimateFanMode.low,
          preset := some ClimatePreset.none, target_temperature := 22 } :=
  (encode_mode_preset_cascade _ (by decide)).2.2.1 (by decide) (by decide) rfl

end Soleus

namespace Soleus

/-- Claim C10: for every (rational-valued) Celsius input, including
values far outside the documented range, temp_to_protocol returns a
value in the closed interval [0x3E, 0x56]: the clamp to [62, 86]
Fahrenheit happens before the subtraction and the narrowing cast, so
the cast never wraps. -/
theorem temp_to_protocol_range (c : ℚ) :
    0x3E ≤ temp_to_protocol c ∧ temp_to_protocol c ≤ 0x56 := by
  unfold temp_to_protocol
  simp only [SOLEUS_TEMP_MIN, SOLEUS_TEMP_MAX, SOLEUS_TEMP_BASE]
  constructor
  · exact Nat.le_add_right _ _
  · have hle : max ((62 : ℕ) : ℚ) (min ((86 : ℕ) : ℚ) (c * 9 / 5 + 32)) ≤ 86 := by
      apply max_le
      · norm_num
      · exact le_trans (min_le_left _ _) (by norm_num)
    have hfl : ⌊max ((62 : ℕ) : ℚ) (min ((86 : ℕ) : ℚ) (c * 9 / 5 + 32)) - ((62 : ℕ) : ℚ)⌋ ≤ 24 := by
      have : max ((62 : ℕ) : ℚ) (min ((86 : ℕ) : ℚ) (c * 9 / 5 + 32)) - ((62 : ℕ) : ℚ) ≤ 24 := by
        push_cast
        linarith
      calc ⌊max ((62 : ℕ) : ℚ) (min ((86 : ℕ) : ℚ) (c * 9 / 5 + 32)) - ((62 : ℕ) : ℚ)⌋
          ≤ ⌊(24 : ℚ)⌋ := Int.floor_le_floor this
        _ = 24 := by norm_num
    omega

end Soleus

namespace Soleus

/-- Claim C8: integer Fahrenheit values 62 to 86 round-trip exactly
through the protocol byte (the decoded Celsius converts back to the
same whole Fahrenheit degree); every Celsius input below 17 encodes to
the boundary byte 0x3E, the byte of 17 Celsius itself, and every input
above 30 encodes to the same byte as 30 Celsius. -/
theorem temp_roundtrip_and_clamp :
    (∀ F : ℕ, 62 ≤ F → F ≤ 86 →
        protocol_to_temp (temp_to_protocol (((F : ℚ) - 32) * 5 / 9)) * 9 / 5 + 32
          = (F : ℚ)) ∧
    temp_to_protocol 17 = 0x3E ∧
    (∀ c : ℚ, c < 17 → temp_to_protocol c = 0x3E) ∧
    (∀ c : ℚ, 30 < c → temp_to_protocol c = temp_to_protocol 30) := by
  refine ⟨?_, ?_, ?_, ?_⟩
  · intro F h62 h86
    have hF : ((F : ℚ) - 32) * 5 / 9 * 9 / 5 + 32 = (F : ℚ) := by ring
    have hmin : min (86 : ℚ) (F : ℚ) = (F : ℚ) := min_eq_right (by exact_mod_cast h86)
    have hmax : max (62 : ℚ) (F : ℚ) = (F : ℚ) := max_eq_right (by exact_mod_cast h62)
    have hfl : ⌊(F : ℚ) - (62 : ℚ)⌋ = (F : ℤ) - 62 := by
      rw [show (F : ℚ) - (62 : ℚ) = (((F : ℤ) - 62 : ℤ) : ℚ) by push_cast; ring]
      exact Int.floor_intCast _
    have hval : temp_to_protocol (((F : ℚ) - 32) * 5 / 9) = F := by
      simp only [temp_to_protocol, SOLEUS_TEMP_MIN, SOLEUS_TEMP_MAX, SOLEUS_TEMP_BASE,
        Nat.cast_ofNat, hF, hmin, hmax, hfl]
      omega
    rw [hval]
    simp only [protocol_to_temp, SOLEUS_TEMP_MIN, SOLEUS_TEMP_BASE, Nat.cast_ofNat]
    ring
  · have h1 : ((17 : ℚ) * 9 / 5 + 32) = 62.6 := by norm_num
    simp only [temp_to_protocol, SOLEUS_TEMP_MIN, SOLEUS_TEMP_MAX, SOLEUS_TEMP_BASE,
      Nat.cast_ofNat, h1]
    rw [min_eq_right (by norm_num), max_eq_right (by norm_num)]
    norm_num
  · intro c hc
    simp only [temp_to_protocol, SOLEUS_TEMP_MIN, SOLEUS_TEMP_MAX, SOLEUS_TEMP_BASE,
      Nat.cast_ofNat]
    have hmin : min (86 : ℚ) (c * 9 / 5 + 32) = c * 9 / 5 + 32 :=
      min_eq_right (by linarith)
    rcases le_total (c * 9 / 5 + 32) 62 with h | h
    · rw [hmin, max_eq_left h]
      norm_num
    · rw [hmin, max_eq_right h]
      have hfl : ⌊c * 9 / 5 + 32 - 62⌋ = 0 := by
        rw [Int.floor_eq_zero_iff, Set.mem_Ico]
        exact ⟨by linarith, by linarith⟩
      rw [hfl]
      rfl
  · intro c hc
    have h30 : ((30 : ℚ) * 9 / 5 + 32) = 86 := by norm_num
    simp only [temp_to_protocol, SOLEUS_TEMP_MIN, SOLEUS_TEMP_MAX, SOLEUS_TEMP_BASE,
      Nat.cast_ofNat, h30]
    rw [min_eq_left (by linarith), min_self, max_eq_right (by norm_num)]

/-- Claim C8 witness: the round trip at 72 Fahrenheit, the clamp at 10
Celsius, and the clamp at 35 Celsius. -/
theorem temp_roundtrip_and_clamp_witness :
    protocol_to_temp (temp_to_protocol ((((72 : ℕ) : ℚ) - 32) * 5 / 9)) * 9 / 5 + 32
        = ((72 : ℕ) : ℚ) ∧
    temp_to_protocol 10 = 0x3E ∧
    temp_to_protocol 35 = temp_to_protocol 30 :=
  ⟨temp_roundtrip_and_clamp.1 72 (by decide) (by decide),
   temp_roundtrip_and_clamp.2.2.1 10 (by decide),
   temp_roundtrip_and_clamp.2.2.2 35 (by decide)⟩

end Soleus
